import Mathlib

/-!
Shallow embedding of the in-memory B-link tree repository (src/node.rs,
src/sync.rs, src/tree.rs), instantiated at integer keys.

Nodes in the source are reference-counted cells (RwSynchronized<NodeInner<T>>);
here they are modelled as plain values, with each method translated from the
body of its source function.  Methods that take a mutable borrow are modelled
as state-passing functions returning the (possibly updated) node.
-/

namespace BLink

/-- Latch acquisition modes, from the LatchType enum in src/sync.rs. -/
inductive LatchType : Type where
  | Shared : LatchType
  | Upgradable : LatchType
  | Excl : LatchType
deriving DecidableEq

/-- NodeInner from src/node.rs: minimum order, root flag, sorted keys,
children, right sibling link, and out-link of a retired node. -/
inductive NodeInner : Type where
  | mk : Nat → Bool → List Int → List NodeInner → Option NodeInner → Option NodeInner → NodeInner

/-- Field accessor for min_ord. -/
def NodeInner.min_ord : NodeInner → Nat
  | .mk m _ _ _ _ _ => m

/-- Field accessor for the root flag. -/
def NodeInner.root : NodeInner → Bool
  | .mk _ r _ _ _ _ => r

/-- Field accessor for keys. -/
def NodeInner.keys : NodeInner → List Int
  | .mk _ _ ks _ _ _ => ks

/-- Field accessor for children. -/
def NodeInner.children : NodeInner → List NodeInner
  | .mk _ _ _ cs _ _ => cs

/-- Field accessor for right_link. -/
def NodeInner.right_link : NodeInner → Option NodeInner
  | .mk _ _ _ _ rl _ => rl

/-- Field accessor for out_link. -/
def NodeInner.out_link : NodeInner → Option NodeInner
  | .mk _ _ _ _ _ ol => ol

/-- NodeInner::new(min_ord) from src/node.rs lines 36-45: all fields empty or
none, root false, min_ord as given. -/
def NodeInner.new (min_ord : Nat) : NodeInner :=
  .mk min_ord false [] [] none none

/-- create(min_ord) from src/node.rs lines 66-68: wraps NodeInner::new in a
fresh synchronized cell (the cell wrapper is identity in this value model). -/
def create (min_ord : Nat) : NodeInner :=
  NodeInner.new min_ord

/-- Loop of Rust slice::binary_search over a sorted slice, searching the
half-open index interval [left, right): compares the middle element with the
target and narrows the interval, returning ok(index) on a hit and
error(insertion point) when the interval is empty.  Out-of-range reads
(never reached for in-range intervals) default to 0. -/
def binary_search_loop (keys : List Int) (key : Int) (left right : Nat) : Except Nat Nat :=
  if h : left < right then
    let size := right - left
    let mid := left + size / 2
    let k := keys.getD mid 0
    if k < key then binary_search_loop keys key (mid + 1) right
    else if key < k then binary_search_loop keys key left mid
    else Except.ok mid
  else Except.error left
termination_by right - left
decreasing_by
  all_goals simp_wf
  all_goals omega

/-- Whole-slice binary search, as called by has_key. -/
def binary_search (keys : List Int) (key : Int) : Except Nat Nat :=
  binary_search_loop keys key 0 keys.length

/-- Result::is_err on the Except result of binary_search. -/
def is_err : Except Nat Nat → Bool
  | .ok _ => false
  | .error _ => true

/-- has_key from src/node.rs lines 71-74: returns
keys.binary_search(&key).is_err(). -/
def has_key (n : NodeInner) (key : Int) : Bool :=
  is_err (binary_search n.keys key)

/-- is_root from src/node.rs lines 77-80: reads the root flag. -/
def is_root (n : NodeInner) : Bool :=
  n.root

/-- move_right from src/node.rs lines 83-86: reads the node (the read is
unused) and returns Node::create(0), a fresh empty node of order 0. -/
def move_right (_n : NodeInner) (_key : Int) (_latch_type : LatchType) : NodeInner :=
  create 0

/-- set_children from src/node.rs lines 89-92: unconditionally replaces the
children vector. -/
def set_children (n : NodeInner) (children : List NodeInner) : NodeInner :=
  match n with
  | .mk m r ks _ rl ol => .mk m r ks children rl ol

/-- set_keys from src/node.rs lines 95-98: unconditionally replaces the keys
vector. -/
def set_keys (n : NodeInner) (keys : List Int) : NodeInner :=
  match n with
  | .mk m r _ cs rl ol => .mk m r keys cs rl ol

/-- would_overflow from src/node.rs lines 101-104: takes a mutable borrow of
the node, tests keys.len() == min_ord, and writes nothing; modelled as
returning the boolean together with the unchanged node. -/
def would_overflow (n : NodeInner) : Bool × NodeInner :=
  (n.keys.length == n.min_ord, n)

/-- would_underflow from src/node.rs lines 107-110: takes a mutable borrow of
the node, tests keys.len() == 2 * min_ord, and writes nothing; modelled as
returning the boolean together with the unchanged node. -/
def would_underflow (n : NodeInner) : Bool × NodeInner :=
  (n.keys.length == 2 * n.min_ord, n)

/-- State of a BinarySemaphore from src/sync.rs: the boolean behind the
mutex (the condvar carries no state of its own). -/
def post (state : Bool) : Bool :=
  !state

/-- wait from src/sync.rs lines 75-82: locks the mutex and loops on the
condvar while the flag is false; the call can only return once the flag is
true, and then returns the flag value without writing to it.  A call that
finds the flag false blocks awaiting a concurrent post, modelled as none;
a call that finds it true returns some (returned value, flag afterwards). -/
def wait (state : Bool) : Option (Bool × Bool) :=
  if state then some (state, state) else none

/-- C1: the claim states has_key(key) is true iff key is present among the
keys.  The code computes binary_search(key).is_err(), which is the exact
inverse: on the sorted node with keys [1, 2, 3], has_key 2 evaluates to
false although 2 is present, and has_key 2 on keys [1, 3] evaluates to true
although 2 is absent. -/
theorem has_key_inverted_on_present_key :
    (2 : Int) ∈ (NodeInner.mk 2 false [1, 2, 3] [] none none).keys ∧
    has_key (.mk 2 false [1, 2, 3] [] none none) 2 = false ∧
    (2 : Int) ∉ (NodeInner.mk 2 false [1, 3] [] none none).keys ∧
    has_key (.mk 2 false [1, 3] [] none none) 2 = true := by
  refine ⟨by decide, ?_, by decide, ?_⟩ <;>
    simp [has_key, binary_search, NodeInner.keys, is_err, binary_search_loop]

/-- C2: the claim states would_overflow is true iff keys.len() = 2 * min_ord.
The code tests keys.len() == min_ord instead: with min_ord 2 it returns
false on a node holding 4 keys (the claimed overflow threshold) and true on
a node holding 2 keys. -/
theorem would_overflow_tests_min_ord_not_double :
    (would_overflow (.mk 2 false [1, 2, 3, 4] [] none none)).1 = false ∧
    (would_overflow (.mk 2 false [1, 2] [] none none)).1 = true := by
  decide

/-- C3: the claim states would_underflow is true iff keys.len() = min_ord.
The code tests keys.len() == 2 * min_ord instead: with min_ord 2 it returns
false on a node holding 2 keys (the claimed underflow threshold) and true on
a node holding 4 keys. -/
theorem would_underflow_tests_double_not_min_ord :
    (would_underflow (.mk 2 false [1, 2] [] none none)).1 = false ∧
    (would_underflow (.mk 2 false [1, 2, 3, 4] [] none none)).1 = true := by
  decide

/-- C4: the claim states that on a node with no right_link and no out_link,
move_right returns that node itself.  The code ignores the node and the key
and always returns create 0, a fresh empty node of order 0: on the linkless
node with min_ord 2 and keys [5], the result differs from the node. -/
theorem move_right_returns_fresh_node :
    (NodeInner.mk 2 false [5] [] none none).right_link = none ∧
    (NodeInner.mk 2 false [5] [] none none).out_link = none ∧
    move_right (.mk 2 false [5] [] none none) 5 .Shared = create 0 ∧
    move_right (.mk 2 false [5] [] none none) 5 .Shared ≠ .mk 2 false [5] [] none none := by
  refine ⟨rfl, rfl, rfl, ?_⟩
  intro h
  have hm := congrArg NodeInner.min_ord h
  simp [move_right, create, NodeInner.new, NodeInner.min_ord] at hm

/-- C5: create(min_ord) returns a new, empty, non-root node with the given
order parameter: root flag false, keys and children empty, right_link and
out_link none, min_ord equal to the argument, with no error path. -/
theorem create_returns_empty_nonroot_node (m : Nat) :
    (create m).min_ord = m ∧ (create m).root = false ∧ (create m).keys = [] ∧
    (create m).children = [] ∧ (create m).right_link = none ∧
    (create m).out_link = none :=
  ⟨rfl, rfl, rfl, rfl, rfl, rfl⟩

/-- C6 counterexample: the claim states that construction with min_ord = 0
does not return a normally-constructed value.  The source constructor has no
validation and no failure path: create 0 returns the fully-formed empty node
of order 0. -/
theorem create_zero_constructs_normally :
    create 0 = NodeInner.mk 0 false [] [] none none ∧ (create 0).min_ord = 0 :=
  ⟨rfl, rfl⟩

/-- C6 amended: node construction performs no validation of min_ord; for
every argument, including 0, create returns a normal empty non-root node
carrying that argument as its order. -/
theorem create_accepts_any_min_ord (m : Nat) :
    (create m).min_ord = m ∧ (create m).root = false ∧ (create m).keys = [] :=
  ⟨rfl, rfl, rfl⟩

/-- C7 counterexample: the claim states a debug-build assertion fires on a
call violating children.len() = keys.len() + 1.  The source bodies are bare
assignments with no assertion of any kind: setting 5 children on a node
holding 2 keys succeeds and the node silently carries the inconsistent
state. -/
theorem set_children_accepts_invariant_violation :
    (set_children (.mk 2 false [1, 2] [] none none)
        [create 2, create 2, create 2, create 2, create 2]).children.length = 5 ∧
    (NodeInner.mk 2 false [1, 2] [] none none).keys.length + 1 = 3 :=
  ⟨rfl, rfl⟩

/-- C7 amended: set_keys and set_children unconditionally replace the
respective vector and leave every other field unchanged, with no invariant
check in any build; maintaining children.len() = keys.len() + 1 is entirely
the responsibility of the caller. -/
theorem set_keys_set_children_unconditional (n : NodeInner) (ks : List Int) (cs : List NodeInner) :
    (set_keys n ks).keys = ks ∧ (set_keys n ks).min_ord = n.min_ord ∧
    (set_keys n ks).children = n.children ∧
    (set_children n cs).children = cs ∧ (set_children n cs).min_ord = n.min_ord ∧
    (set_children n cs).keys = n.keys := by
  cases n
  exact ⟨rfl, rfl, rfl, rfl, rfl, rfl⟩

/-- C8: post flips the two-state flag: after post the flag equals the
negation of its previous value, so posting when the flag is true sets it to
false. -/
theorem post_flips_flag (s : Bool) : post s = !s ∧ post true = false :=
  ⟨rfl, rfl⟩

/-- C9: would_overflow and would_underflow are side-effect-free: the node
returned alongside the boolean is the input node, every field unchanged. -/
theorem predicates_preserve_state (n : NodeInner) :
    (would_overflow n).2 = n ∧ (would_underflow n).2 = n :=
  ⟨rfl, rfl⟩

/-- C10: whenever wait returns, it returns true and leaves the flag true: it
observes the flag without consuming it, so a second wait with no intervening
post also returns immediately with true. -/
theorem wait_observes_without_consuming (s r s' : Bool)
    (h : wait s = some (r, s')) :
    r = true ∧ s' = true ∧ wait s' = some (true, true) := by
  cases s with
  | false => simp [wait] at h
  | true =>
    simp [wait] at h
    obtain ⟨hr, hs⟩ := h
    subst hr hs
    exact ⟨rfl, rfl, rfl⟩

/-- C10 witness: applying the theorem at the concrete flag state true. -/
theorem wait_observes_without_consuming_witness :
    true = true ∧ true = true ∧ wait true = some (true, true) :=
  wait_observes_without_consuming true true true rfl

end BLink
